import Mathlib

/-!
Shallow embedding of the streaming analysis and persistence pipeline of the
Real-Time Sensor Data Logger (`src/data_analyzer.c`, `src/data_logger.c`,
`src/utils.c`).

Modelling conventions:
* C `double` values are modelled as exact rationals (`ℚ`); all arithmetic is
  exact, so "within floating-point tolerance" statements become exact
  equalities.
* C machine integers (`int`, `long`, counts and sizes) are modelled as `ℕ`
  where the source only ever stores non-negative values in them.
* `INFINITY` / `-INFINITY` sentinels of the statistics accumulator are
  modelled by `WithTop ℚ` (for the running minimum, initialised to `⊤`) and
  `WithBot ℚ` (for the running maximum, initialised to `⊥`).
* `sqrt` has no exact rational counterpart.  Wherever the source computes a
  square root (`std_deviation = sqrt(variance)`, the Pearson correlation
  denominator, the RMS amplitude) the embedding carries the squared quantity
  instead and compares it against squared thresholds; `sqrt` is strictly
  monotone on non-negatives, so every comparison in the source is preserved
  exactly.  Each such spot is noted at its definition.
* C strings that hold `printf`-formatted numbers are modelled by small
  inductive types carrying the formatted value; fixed strings are kept as
  `String` literals.
-/

namespace SensorLogger

/-- Model of `precise_time_t` from `utils.h`: seconds plus a nanosecond part. -/
structure precise_time where
  timestamp : Int
  nanoseconds : Int
deriving DecidableEq, Repr

/-- Model of `sensor_data_t` from `sensor_simulator.h`.  The `sensor_type_t` enum is
modelled by its numeric code (`ℕ`), matching the range check
`data->type >= 0 && data->type < 8` performed at serialization time. -/
structure sensor_data where
  type : ℕ
  value : ℚ
  timestamp : precise_time
  unit : String
  description : String
deriving DecidableEq, Repr

/-- Model of `statistics_t` from `data_analyzer.h`.  `std_deviation` is kept as a plain
field; the source assigns `sqrt(variance)` to it in `finalize_statistics`,
which has no exact rational counterpart (see `finalize_statistics`). -/
structure statistics where
  mean : ℚ
  min : WithTop ℚ
  max : WithBot ℚ
  std_deviation : ℚ
  variance : ℚ
  median : ℚ
  sample_count : ℕ
  sum : ℚ
  sum_squares : ℚ
deriving DecidableEq

/-- Function `init_statistics` (`data_analyzer.c`): empty accumulator, `min = INFINITY`,
`max = -INFINITY`. -/
def init_statistics : statistics :=
  { mean := 0, min := ⊤, max := ⊥, std_deviation := 0, variance := 0,
    median := 0, sample_count := 0, sum := 0, sum_squares := 0 }

/-- Function `update_statistics` (`data_analyzer.c`): O(1) fold of one value. -/
def update_statistics (stats : statistics) (value : ℚ) : statistics :=
  let stats := { stats with
    sample_count := stats.sample_count + 1,
    sum := stats.sum + value,
    sum_squares := stats.sum_squares + value * value }
  let stats := if (value : WithTop ℚ) < stats.min then { stats with min := (value : WithTop ℚ) } else stats
  if (stats.max : WithBot ℚ) < (value : WithBot ℚ) then { stats with max := (value : WithBot ℚ) } else stats

/-- Function `finalize_statistics` (`data_analyzer.c`): derives mean, variance and
median (approximated by the mean in the source) once `sample_count > 0`.
The source additionally assigns `std_deviation = sqrt(variance)`; a square
root is irrational in general, so the embedding leaves the `std_deviation`
field unchanged and theorems about the derived spread are stated on
`variance = std_deviation²` instead. -/
def finalize_statistics (stats : statistics) : statistics :=
  if stats.sample_count = 0 then stats
  else
    let m : ℚ := stats.sum / (stats.sample_count : ℚ)
    { stats with
      mean := m,
      variance := stats.sum_squares / (stats.sample_count : ℚ) - m * m,
      median := m }

/-- Reference O(n) mean: re-scan of the whole sequence (`sum of values / n`),
as described in the specification's cross-check property. -/
def refMean (xs : List ℚ) : ℚ := xs.sum / (xs.length : ℚ)

/-- Reference O(n) population variance: mean of squares minus square of mean,
computed by re-scanning the whole sequence. -/
def refVariance (xs : List ℚ) : ℚ :=
  (xs.map (fun v => v * v)).sum / (xs.length : ℚ) - refMean xs * refMean xs

/-- Model of `moving_average_t` from `data_analyzer.h`.  The fixed C array
`double* buffer` (of length `buffer_size`) is modelled as a total function
`ℕ → ℚ`; the source only ever indexes it with `current_index`, which stays
below `buffer_size`. -/
structure moving_average where
  buffer : ℕ → ℚ
  buffer_size : ℕ
  current_index : ℕ
  sample_count : ℕ
  sum : ℚ

/-- Function `init_moving_average` (`data_analyzer.c`): fails (`none`, C return `-1`)
when `window_size <= 0`; otherwise a zero-filled window. -/
def init_moving_average (window_size : ℕ) : Option moving_average :=
  if window_size = 0 then none
  else some { buffer := fun _ => 0, buffer_size := window_size,
              current_index := 0, sample_count := 0, sum := 0 }

/-- Function `update_moving_average` (`data_analyzer.c`): evicts the slot at
`current_index` from the running sum once the window is full, writes the new
value there, advances the circular index, and returns the windowed mean. -/
def update_moving_average (ma : moving_average) (value : ℚ) : moving_average × ℚ :=
  let ma :=
    if ma.buffer_size ≤ ma.sample_count then
      { ma with sum := ma.sum - ma.buffer ma.current_index }
    else
      { ma with sample_count := ma.sample_count + 1 }
  let ma := { ma with buffer := Function.update ma.buffer ma.current_index value,
                      sum := ma.sum + value }
  let ma := { ma with current_index := (ma.current_index + 1) % ma.buffer_size }
  (ma, ma.sum / (ma.sample_count : ℚ))

/-- Fold a whole input sequence through the moving-average filter starting
from the freshly initialised state of capacity `c`. -/
def runMovingAverage (c : ℕ) (xs : List ℚ) : moving_average :=
  xs.foldl (fun s v => (update_moving_average s v).1)
    { buffer := fun _ => 0, buffer_size := c, current_index := 0,
      sample_count := 0, sum := 0 }

/-- Model of `anomaly_config_t` from `data_analyzer.h`. -/
structure anomaly_config where
  threshold_multiplier : ℚ
  absolute_threshold : ℚ
  window_size : ℕ
  min_samples_for_analysis : ℕ
deriving DecidableEq

/-- The `description` string of an `anomaly_result_t`: the source stores
either `"Normal"` or one of two `snprintf`-formatted messages; the embedding
keeps the message kind together with the number that would be formatted
into it. -/
inductive anomaly_desc
  | normal
  | statistical (std_devs : ℚ)
  | absolute (value : ℚ)
deriving DecidableEq, Repr

/-- Model of `anomaly_result_t` from `data_analyzer.h` (`is_anomaly` is an `int` used
as a boolean in the source). -/
structure anomaly_result where
  is_anomaly : Bool
  severity : ℚ
  description : anomaly_desc
  detected_at : precise_time
deriving DecidableEq

/-- Function `detect_anomaly` (`data_analyzer.c`): warm-up guard, then the statistical
threshold check followed by the absolute-ceiling check; the absolute check
overwrites the severity only when the severity so far equals `0.0`. -/
def detect_anomaly (data : sensor_data) (baseline_stats : statistics)
    (config : anomaly_config) : anomaly_result :=
  let result : anomaly_result :=
    { is_anomaly := false, severity := 0, description := .normal,
      detected_at := data.timestamp }
  if baseline_stats.sample_count < config.min_samples_for_analysis then result
  else
    let deviation : ℚ := |data.value - baseline_stats.mean|
    let threshold : ℚ := config.threshold_multiplier * baseline_stats.std_deviation
    let result :=
      if threshold < deviation then
        { result with is_anomaly := true,
                      severity := deviation / baseline_stats.std_deviation,
                      description := .statistical (deviation / baseline_stats.std_deviation) }
      else result
    if config.absolute_threshold < |data.value| then
      if result.severity = 0 then
        { result with is_anomaly := true,
                      severity := |data.value| / config.absolute_threshold,
                      description := .absolute data.value }
      else { result with is_anomaly := true }
    else result

/-- Model of `trend_analysis_t` from `data_analyzer.h`.  The source's `correlation`
field is `sum_dxdy / sqrt(sum_dx2 * sum_dy2)` and `confidence` is its absolute
value; square roots are irrational in general, so the embedding carries the
squares of these two fields (`correlation_sq = correlation²`,
`confidence_sq = confidence²`); a field is `0` exactly when the source field
is `0.0`. -/
structure trend_analysis where
  slope : ℚ
  correlation_sq : ℚ
  trend_direction : String
  confidence_sq : ℚ
deriving DecidableEq

/-- The neutral result `analyze_trend` starts from: zero slope, zero
correlation, direction `"stable"`, zero confidence. -/
def neutral_trend : trend_analysis :=
  { slope := 0, correlation_sq := 0, trend_direction := "stable", confidence_sq := 0 }

/-- First loop of `analyze_trend`: `(sum_x, sum_y, sum_xy, sum_x2)` over the
window, with `x` the sample index and `y` the sample value. -/
def trend_sums (ys : List ℚ) : ℚ × ℚ × ℚ × ℚ :=
  ys.enum.foldl
    (fun acc p =>
      let x : ℚ := (p.1 : ℚ)
      let y : ℚ := p.2
      (acc.1 + x, acc.2.1 + y, acc.2.2.1 + x * y, acc.2.2.2 + x * x))
    (0, 0, 0, 0)

/-- Second loop of `analyze_trend`: `(sum_dx2, sum_dy2, sum_dxdy)` of the
deviations from the window means. -/
def trend_dev_sums (ys : List ℚ) (mean_x mean_y : ℚ) : ℚ × ℚ × ℚ :=
  ys.enum.foldl
    (fun acc p =>
      let dx : ℚ := (p.1 : ℚ) - mean_x
      let dy : ℚ := p.2 - mean_y
      (acc.1 + dx * dx, acc.2.1 + dy * dy, acc.2.2 + dx * dy))
    (0, 0, 0)

/-- The most recent `window_size` sample values used by `analyze_trend`
(`data_array[start_idx + i]` for `i < window_size`). -/
def trend_window (data_array : List sensor_data) (window_size : ℕ) : List ℚ :=
  ((data_array.drop (data_array.length - window_size)).map (fun d => d.value))

/-- The least-squares denominator `n * sum_x2 - sum_x * sum_x` computed by
`analyze_trend`. -/
def trend_denominator (data_array : List sensor_data) (window_size : ℕ) : ℚ :=
  let s := trend_sums (trend_window data_array window_size)
  (window_size : ℚ) * s.2.2.2 - s.1 * s.1

/-- Function `analyze_trend` (`data_analyzer.c`): least-squares regression of value
against index over the last `window_size` samples; neutral result when there
are too few samples, when `window_size < 2`, or when the denominator guard
`fabs(denominator) > 1e-10` fails. -/
def analyze_trend (data_array : List sensor_data) (window_size : ℕ) : trend_analysis :=
  if data_array.length < window_size ∨ window_size < 2 then neutral_trend
  else
    let ys := trend_window data_array window_size
    let s := trend_sums ys
    let sum_x := s.1
    let sum_y := s.2.1
    let sum_xy := s.2.2.1
    let sum_x2 := s.2.2.2
    let n : ℚ := (window_size : ℚ)
    let denominator := n * sum_x2 - sum_x * sum_x
    if 1 / 10 ^ 10 < |denominator| then
      let slope := (n * sum_xy - sum_x * sum_y) / denominator
      let mean_x := sum_x / n
      let mean_y := sum_y / n
      let d := trend_dev_sums ys mean_x mean_y
      let sum_dx2 := d.1
      let sum_dy2 := d.2.1
      let sum_dxdy := d.2.2
      let trend :=
        if 0 < sum_dx2 ∧ 0 < sum_dy2 then
          { neutral_trend with
            slope := slope,
            correlation_sq := (sum_dxdy * sum_dxdy) / (sum_dx2 * sum_dy2),
            confidence_sq := (sum_dxdy * sum_dxdy) / (sum_dx2 * sum_dy2) }
        else { neutral_trend with slope := slope }
      if |slope| < 1 / 10 ^ 6 then { trend with trend_direction := "stable" }
      else if 0 < slope then { trend with trend_direction := "increasing" }
      else { trend with trend_direction := "decreasing" }
    else neutral_trend

/-- The peak-detection loop of `analyze_frequency_spectrum`: scans interior
points, counting strict local maxima and keeping the largest peak value seen
(accumulator starts at `(0, 0.0)` in the source). -/
def peak_scan : List ℚ → ℕ × ℚ → ℕ × ℚ
  | a :: b :: c :: rest, acc =>
      peak_scan (b :: c :: rest)
        (if a < b ∧ c < b then (acc.1 + 1, if acc.2 < b then b else acc.2) else acc)
  | _, acc => acc

/-- Function `analyze_frequency_spectrum` (`data_analyzer.c`): `none` models the C
return value `-1` for fewer than four samples; otherwise
`some (dominant_frequency, amplitude)` for the two output parameters.  Note
the total time is `count * 0.1` — a hardcoded 100 ms sample interval. -/
def analyze_frequency_spectrum (values : List ℚ) : Option (ℚ × ℚ) :=
  if values.length < 4 then none
  else
    let scanned := peak_scan values (0, 0)
    let peak_count := scanned.1
    let amplitude := scanned.2
    let total_time : ℚ := (values.length : ℚ) * (1 / 10)
    let dominant_frequency : ℚ :=
      if 0 < peak_count ∧ 0 < total_time then (peak_count : ℚ) / total_time else 0
    some (dominant_frequency, amplitude)

/-- The interior strict local maxima of a sequence, in order: any point
greater than both of its neighbours. -/
def localPeaks : List ℚ → List ℚ
  | a :: b :: c :: rest =>
      (if a < b ∧ c < b then [b] else []) ++ localPeaks (b :: c :: rest)
  | _ => []

/-- Modelled from the spec (§4.5 Peak Frequency Estimator), the refinement
target of the claim about `analyze_frequency_spectrum`:
`estimate(values, sampleIntervalSeconds)` returns
`dominantFrequency = peakCount / totalDurationSeconds` with the total
duration derived from the *given* sample interval, and
`amplitude = max(peakValues)`.  The source function takes no interval
argument, which is what the claim is tested against. -/
def spec_estimate (values : List ℚ) (sampleIntervalSeconds : ℚ) : ℚ × ℚ :=
  let peaks := localPeaks values
  (((peaks.length : ℚ)) / ((values.length : ℚ) * sampleIntervalSeconds),
   match peaks with
   | [] => 0
   | p :: ps => ps.foldl max p)

/-- Model of `bridge_analysis_t` from `data_analyzer.h`.  The source's
`rms_amplitude` field is `sqrt(sum_squares / count)`; the embedding carries
its square `rms_sq_amplitude = rms_amplitude²`, and every threshold
comparison `rms_amplitude < c` of the source becomes `rms_sq_amplitude < c²`
(equivalent, because `sqrt` is strictly monotone on non-negatives — see
`sqrt_lt_iff_lt_sq`). -/
structure bridge_analysis where
  rms_sq_amplitude : ℚ
  peak_amplitude : ℚ
  dominant_frequency : ℚ
  safety_status : ℕ
  safety_message : String
deriving DecidableEq

/-- The verdict `analyze_bridge_vibration` returns for fewer than 10
samples. -/
def insufficient_verdict : bridge_analysis :=
  { rms_sq_amplitude := 0, peak_amplitude := 0, dominant_frequency := 0,
    safety_status := 0, safety_message := "Insufficient data" }

/-- Function `analyze_bridge_vibration` (`data_analyzer.c`): RMS and peak amplitude
over the samples, frequency via `analyze_frequency_spectrum`, and the fixed
three-tier safety classification. -/
def analyze_bridge_vibration (vibration_data : List sensor_data) : bridge_analysis :=
  if vibration_data.length < 10 then insufficient_verdict
  else
    let values := vibration_data.map (fun d => d.value)
    let sum_squares := (values.map (fun v => v * v)).sum
    let peak_amplitude := values.foldl (fun p v => if p < v then v else p) 0
    let rms_sq := sum_squares / (vibration_data.length : ℚ)
    let dominant_frequency := ((analyze_frequency_spectrum values).getD (0, 0)).1
    if rms_sq < (1 / 10) * (1 / 10) ∧ peak_amplitude < 3 / 10 then
      { rms_sq_amplitude := rms_sq, peak_amplitude := peak_amplitude,
        dominant_frequency := dominant_frequency, safety_status := 0,
        safety_message := "Normal vibration levels - Bridge is safe" }
    else if rms_sq < (3 / 10) * (3 / 10) ∧ peak_amplitude < 8 / 10 then
      { rms_sq_amplitude := rms_sq, peak_amplitude := peak_amplitude,
        dominant_frequency := dominant_frequency, safety_status := 1,
        safety_message := "Elevated vibration levels - Monitor closely" }
    else
      { rms_sq_amplitude := rms_sq, peak_amplitude := peak_amplitude,
        dominant_frequency := dominant_frequency, safety_status := 2,
        safety_message := "CRITICAL: Excessive vibration - Immediate inspection required" }

/-- The fields of `struct tm` the logger reads when building timestamps and
filenames (`localtime` results).  Raw C semantics are kept: `tm_year` is
years since 1900 and `tm_mon` is zero-based. -/
structure tm_info where
  tm_year : ℕ
  tm_mon : ℕ
  tm_mday : ℕ
  tm_hour : ℕ
  tm_min : ℕ
  tm_sec : ℕ
deriving DecidableEq, Repr

/-- Zero-padded decimal rendering, as produced by `%0Nd` / `%0Nld`. -/
def padNum (width : ℕ) (n : ℕ) : String :=
  let s := toString n
  String.mk (List.replicate (width - s.length) '0') ++ s

/-- Function `format_timestamp` (`utils.c`):
`"%04d-%02d-%02d %02d:%02d:%02d.%06ld"` over the local time of the reading,
with the sub-second part `nanoseconds / 1000` (microseconds).  `localtime` is
timezone- and environment-dependent, so it is passed in as the function
`lt`. -/
def format_timestamp (lt : Int → tm_info) (t : precise_time) : String :=
  let tm := lt t.timestamp
  padNum 4 (tm.tm_year + 1900) ++ "-" ++ padNum 2 (tm.tm_mon + 1) ++ "-" ++
    padNum 2 tm.tm_mday ++ " " ++ padNum 2 tm.tm_hour ++ ":" ++
    padNum 2 tm.tm_min ++ ":" ++ padNum 2 tm.tm_sec ++ "." ++
    padNum 6 (t.nanoseconds / 1000).toNat

/-- Rendering of a value with `%.6f`.  The source formats an IEEE double rounded
to six decimals; the embedding rounds the exact rational to six decimals
(half away from zero).  No claim depends on the digits themselves. -/
def fmt6 (q : ℚ) : String :=
  let n : ℕ := (|q| * 1000000 + 1 / 2).floor.toNat
  (if q < 0 then "-" else "") ++ toString (n / 1000000) ++ "." ++ padNum 6 (n % 1000000)

/-- The `sensor_type_names` table of `flush_logger_buffer`, with the
`"Unknown"` fallback for an out-of-range type code. -/
def sensor_type_name (t : ℕ) : String :=
  if t < 8 then
    ["Temperature", "Vibration", "Strain", "Humidity",
     "Pressure", "Accel_X", "Accel_Y", "Accel_Z"].getD t "Unknown"
  else "Unknown"

/-- The header record every log file starts with (`write_csv_header`). -/
def csv_header : String := "Timestamp,Sensor_Type,Value,Unit,Description\n"

/-- One serialized CSV record, as written by the loop body of
`flush_logger_buffer`: `"%s,%s,%.6f,%s,%s\n"`. -/
def csv_line (lt : Int → tm_info) (data : sensor_data) : String :=
  format_timestamp lt data.timestamp ++ "," ++ sensor_type_name data.type ++ "," ++
    fmt6 data.value ++ "," ++ data.unit ++ "," ++ data.description ++ "\n"

/-- Model of `logger_config_t` from `data_logger.h`. -/
structure logger_config where
  filename : String
  directory : String
  max_file_size_mb : ℕ
  auto_rotate : Bool
  buffer_size : ℕ
  flush_interval_ms : ℕ
deriving DecidableEq

/-- Model of `data_logger_t` from `data_logger.h`.  The open `FILE*` is modelled by
the list of lines written to it so far (`current_file`); files closed by
rotation are retained in `closed_files` (name and contents, oldest first) so
that data preservation across rotation can be stated.  The C buffer array
plus `buffer_index` is modelled by the list of its first `buffer_index`
slots. -/
structure data_logger where
  config : logger_config
  current_filename : String
  current_file : List String
  current_file_size : ℕ
  sample_count : ℕ
  buffer : List sensor_data
  last_flush : precise_time
  closed_files : List (String × List String)
deriving DecidableEq

/-- Filename generation shared by `init_data_logger` and `rotate_log_file`:
`"%s/%s_%04d%02d%02d_%02d%02d%02d.csv"`. -/
def log_filename (directory base_name : String) (t : tm_info) : String :=
  directory ++ "/" ++ base_name ++ "_" ++
    padNum 4 (t.tm_year + 1900) ++ padNum 2 (t.tm_mon + 1) ++ padNum 2 t.tm_mday ++
    "_" ++ padNum 2 t.tm_hour ++ padNum 2 t.tm_min ++ padNum 2 t.tm_sec ++ ".csv"

/-- The base-name extraction of `rotate_log_file`: when the current filename
contains a `'/'` (`strrchr`), the part after the last `'/'` truncated at its
first `'_'` (`strchr`; left whole when it has no underscore); otherwise the
fallback `"sensor_data"`. -/
def extract_base_name (current_filename : String) : String :=
  let cs := current_filename.toList
  if cs.contains '/' then
    String.mk ((cs.reverse.takeWhile (fun c => c ≠ '/')).reverse.takeWhile (fun c => c ≠ '_'))
  else "sensor_data"

/-- Function `write_csv_header` (`data_logger.c`): appends the header record to the
open file and counts its bytes into `current_file_size` (guarded by the
source's `bytes_written > 0` check). -/
def write_csv_header (logger : data_logger) : data_logger :=
  if 0 < csv_header.length then
    { logger with current_file := logger.current_file ++ [csv_header],
                  current_file_size := logger.current_file_size + csv_header.length }
  else logger

/-- The loop body of `flush_logger_buffer`: serializes one buffered reading,
appends it to the open file, and (guarded by `bytes_written > 0`) adds its
byte count to `current_file_size`. -/
def write_record (lt : Int → tm_info) (logger : data_logger) (data : sensor_data) : data_logger :=
  let line := csv_line lt data
  { logger with current_file := logger.current_file ++ [line],
                current_file_size := logger.current_file_size +
                  (if 0 < line.length then line.length else 0) }

/-- Function `rotate_log_file` (`data_logger.c`): closes the current file, derives a
new filename from the extracted base name plus the rotation-time timestamp
`now_tm`, opens the new (empty) file, resets `current_file_size` to zero and
re-writes the header. -/
def rotate_log_file (logger : data_logger) (now_tm : tm_info) : data_logger :=
  let logger := { logger with
    closed_files := logger.closed_files ++ [(logger.current_filename, logger.current_file)] }
  let base_name := extract_base_name logger.current_filename
  let logger := { logger with
    current_filename := log_filename logger.config.directory base_name now_tm,
    current_file := [] }
  let logger := { logger with current_file_size := 0 }
  write_csv_header logger

/-- Function `flush_logger_buffer` (`data_logger.c`): no-op on an empty buffer;
otherwise serializes every buffered reading in order, clears the buffer,
stamps `last_flush`, and finally rotates if auto-rotation is on and the
durable size exceeds `max_file_size_mb * 1024 * 1024` bytes.  `now` is the
`get_current_time()` result and `now_tm` the `localtime` value a rotation
would use for the new filename. -/
def flush_logger_buffer (logger : data_logger) (lt : Int → tm_info)
    (now : precise_time) (now_tm : tm_info) : data_logger :=
  if logger.buffer = [] then logger
  else
    let logger' := logger.buffer.foldl (write_record lt) logger
    let logger' := { logger' with buffer := [], last_flush := now }
    if logger'.config.auto_rotate ∧
        logger'.config.max_file_size_mb * 1024 * 1024 < logger'.current_file_size then
      rotate_log_file logger' now_tm
    else logger'

/-! ## Sample readings used as concrete witnesses -/

/-- A zero-valued vibration reading (type code 1). -/
def zeroReading : sensor_data := ⟨1, 0, ⟨0, 0⟩, "m/s2", "vibration"⟩

/-- A benign constant reading with value 5. -/
def fiveReading : sensor_data := ⟨0, 5, ⟨0, 0⟩, "C", "temperature"⟩

/-- An extreme outlier reading with value 1000000. -/
def outlierReading : sensor_data := ⟨0, 1000000, ⟨0, 0⟩, "C", "temperature"⟩

/-! ## Statistics accumulator: helper lemmas -/

/-- One `update_statistics` step, written as a single record update. -/
theorem update_statistics_eq (stats : statistics) (value : ℚ) :
    update_statistics stats value =
      { stats with
        sample_count := stats.sample_count + 1,
        sum := stats.sum + value,
        sum_squares := stats.sum_squares + value * value,
        min := if (value : WithTop ℚ) < stats.min then (value : WithTop ℚ) else stats.min,
        max := if stats.max < (value : WithBot ℚ) then (value : WithBot ℚ) else stats.max } := by
  unfold update_statistics
  dsimp only
  split_ifs <;> rfl

theorem foldl_update_sample_count (xs : List ℚ) :
    ∀ s : statistics, (xs.foldl update_statistics s).sample_count = s.sample_count + xs.length := by
  induction xs with
  | nil => intro s; simp
  | cons a l ih =>
    intro s
    rw [List.foldl_cons, ih, update_statistics_eq]
    simp [Nat.add_comm, Nat.add_assoc, Nat.add_left_comm]

theorem foldl_update_sum (xs : List ℚ) :
    ∀ s : statistics, (xs.foldl update_statistics s).sum = s.sum + xs.sum := by
  induction xs with
  | nil => intro s; simp
  | cons a l ih =>
    intro s
    rw [List.foldl_cons, ih, update_statistics_eq]
    simp [add_assoc]

theorem foldl_update_sum_squares (xs : List ℚ) :
    ∀ s : statistics,
      (xs.foldl update_statistics s).sum_squares =
        s.sum_squares + (xs.map (fun v => v * v)).sum := by
  induction xs with
  | nil => intro s; simp
  | cons a l ih =>
    intro s
    rw [List.foldl_cons, ih, update_statistics_eq]
    simp [add_assoc]

theorem foldl_update_min (xs : List ℚ) :
    ∀ s : statistics, (xs.foldl update_statistics s).min = min s.min xs.minimum := by
  induction xs with
  | nil =>
    intro s
    simp [List.minimum_nil]
  | cons a l ih =>
    intro s
    rw [List.foldl_cons, ih, update_statistics_eq, List.minimum_cons, ← min_assoc]
    have harg : (if (a : WithTop ℚ) < s.min then (a : WithTop ℚ) else s.min) =
        min s.min (a : WithTop ℚ) := by
      rcases lt_or_le (a : WithTop ℚ) s.min with h | h
      · rw [if_pos h, min_eq_right h.le]
      · rw [if_neg (not_lt.mpr h), min_eq_left h]
    simp only [harg]

theorem foldl_update_max (xs : List ℚ) :
    ∀ s : statistics, (xs.foldl update_statistics s).max = max s.max xs.maximum := by
  induction xs with
  | nil =>
    intro s
    simp [List.maximum_nil]
  | cons a l ih =>
    intro s
    rw [List.foldl_cons, ih, update_statistics_eq, List.maximum_cons, ← max_assoc]
    have harg : (if s.max < (a : WithBot ℚ) then (a : WithBot ℚ) else s.max) =
        max s.max (a : WithBot ℚ) := by
      rcases lt_or_le s.max (a : WithBot ℚ) with h | h
      · rw [if_pos h, max_eq_right h.le]
      · rw [if_neg (not_lt.mpr h), max_eq_left h]
    simp only [harg]

/-- C1: for every non-empty finite sequence of input values, folding them
through `update_statistics` and then calling `finalize_statistics` yields the
same count, sum, min, max, mean and variance as the direct O(n) reference
computation that re-scans the whole sequence (`refMean`, `refVariance`,
`List.minimum`, `List.maximum`).  Arithmetic is exact here, so agreement is
exact equality (subsuming "within floating-point tolerance"). -/
theorem statistics_fold_matches_rescan (xs : List ℚ) (hne : xs ≠ []) :
    (finalize_statistics (xs.foldl update_statistics init_statistics)).sample_count = xs.length ∧
    (finalize_statistics (xs.foldl update_statistics init_statistics)).sum = xs.sum ∧
    (finalize_statistics (xs.foldl update_statistics init_statistics)).min = xs.minimum ∧
    (finalize_statistics (xs.foldl update_statistics init_statistics)).max = xs.maximum ∧
    (finalize_statistics (xs.foldl update_statistics init_statistics)).mean = refMean xs ∧
    (finalize_statistics (xs.foldl update_statistics init_statistics)).variance = refVariance xs := by
  have hcount : (xs.foldl update_statistics init_statistics).sample_count = xs.length := by
    rw [foldl_update_sample_count]; simp [init_statistics]
  have hsum : (xs.foldl update_statistics init_statistics).sum = xs.sum := by
    rw [foldl_update_sum]; simp [init_statistics]
  have hsq : (xs.foldl update_statistics init_statistics).sum_squares =
      (xs.map (fun v => v * v)).sum := by
    rw [foldl_update_sum_squares]; simp [init_statistics]
  have hmin : (xs.foldl update_statistics init_statistics).min = xs.minimum := by
    rw [foldl_update_min]; simp [init_statistics]
  have hmax : (xs.foldl update_statistics init_statistics).max = xs.maximum := by
    rw [foldl_update_max]; simp [init_statistics]
  have hne' : (xs.foldl update_statistics init_statistics).sample_count ≠ 0 := by
    rw [hcount]; simpa using hne
  unfold finalize_statistics
  rw [if_neg hne']
  refine ⟨hcount, hsum, hmin, hmax, ?_, ?_⟩
  · dsimp only
    rw [hsum, hcount, refMean]
  · dsimp only
    rw [hsum, hsq, hcount, refVariance, refMean]

/-- Witness for C1 at the concrete sequence `[1, 2]`. -/
theorem statistics_fold_matches_rescan_witness :
    ([ (1 : ℚ), 2] ≠ []) ∧
    ((finalize_statistics ([(1 : ℚ), 2].foldl update_statistics init_statistics)).sample_count
        = [(1 : ℚ), 2].length ∧
      (finalize_statistics ([(1 : ℚ), 2].foldl update_statistics init_statistics)).sum
        = [(1 : ℚ), 2].sum ∧
      (finalize_statistics ([(1 : ℚ), 2].foldl update_statistics init_statistics)).min
        = [(1 : ℚ), 2].minimum ∧
      (finalize_statistics ([(1 : ℚ), 2].foldl update_statistics init_statistics)).max
        = [(1 : ℚ), 2].maximum ∧
      (finalize_statistics ([(1 : ℚ), 2].foldl update_statistics init_statistics)).mean
        = refMean [(1 : ℚ), 2] ∧
      (finalize_statistics ([(1 : ℚ), 2].foldl update_statistics init_statistics)).variance
        = refVariance [(1 : ℚ), 2]) :=
  ⟨by decide, statistics_fold_matches_rescan [(1 : ℚ), 2] (by decide)⟩

/-- C3 counterexample: `finalize_statistics` performs no clamping of the
derived variance; on the statistics state with `sample_count = 1`, `sum = 2`,
`sum_squares = 0` it derives the negative variance `-4`, refuting the claim
that the derived variance is clamped to be non-negative for every state with
positive count. -/
theorem finalize_variance_not_clamped :
    (finalize_statistics { init_statistics with sample_count := 1, sum := 2 }).variance < 0 := by
  norm_num [finalize_statistics, init_statistics]

/-- Cauchy–Schwarz for a list of rationals against the all-ones vector:
`(Σ x)² ≤ n · Σ x²`. -/
theorem sq_sum_le_length_mul_sum_sq (xs : List ℚ) :
    xs.sum * xs.sum ≤ (xs.length : ℚ) * (xs.map (fun v => v * v)).sum := by
  induction xs with
  | nil => simp
  | cons a l ih =>
    by_cases hl : l = []
    · subst hl; simp
    · have hn : 1 ≤ (l.length : ℚ) := by
        have : 1 ≤ l.length := Nat.one_le_iff_ne_zero.mpr (by simpa using hl)
        exact_mod_cast this
      have hn0 : (0 : ℚ) ≤ (l.length : ℚ) := by positivity
      simp only [List.sum_cons, List.map_cons, List.length_cons]
      push_cast
      nlinarith [ih, sq_nonneg ((l.length : ℚ) * a - l.sum),
        mul_nonneg hn0 (sub_nonneg.mpr ih)]

/-- C3 amended: the source performs no clamping, but for every statistics
state actually reached by folding a sequence of readings from the initial
state, the variance `sum_squares/count - mean²` derived by
`finalize_statistics` is non-negative in exact arithmetic, so its square
root (the standard deviation) is well-defined. -/
theorem variance_nonneg_on_stream (xs : List ℚ) (hne : xs ≠ []) :
    0 ≤ (finalize_statistics (xs.foldl update_statistics init_statistics)).variance := by
  have hcount : (xs.foldl update_statistics init_statistics).sample_count = xs.length := by
    rw [foldl_update_sample_count]; simp [init_statistics]
  have hsum : (xs.foldl update_statistics init_statistics).sum = xs.sum := by
    rw [foldl_update_sum]; simp [init_statistics]
  have hsq : (xs.foldl update_statistics init_statistics).sum_squares =
      (xs.map (fun v => v * v)).sum := by
    rw [foldl_update_sum_squares]; simp [init_statistics]
  have hne' : (xs.foldl update_statistics init_statistics).sample_count ≠ 0 := by
    rw [hcount]; simpa using hne
  have hn : (0 : ℚ) < (xs.length : ℚ) := by
    have : 0 < xs.length := List.length_pos.mpr hne
    exact_mod_cast this
  unfold finalize_statistics
  rw [if_neg hne']
  dsimp only
  rw [hsum, hsq, hcount, sub_nonneg, div_mul_div_comm,
    div_le_div_iff₀ (by positivity) hn]
  nlinarith [sq_sum_le_length_mul_sum_sq xs, hn]

/-- Witness for the amended C3 at the concrete sequence `[1, 2]`. -/
theorem variance_nonneg_on_stream_witness :
    ([(1 : ℚ), 2] ≠ []) ∧
    0 ≤ (finalize_statistics ([(1 : ℚ), 2].foldl update_statistics init_statistics)).variance :=
  ⟨by decide, variance_nonneg_on_stream [(1 : ℚ), 2] (by decide)⟩

/-- C5: for every reading value (however extreme) and every baseline state
whose `sample_count` is below `min_samples_for_analysis`, `detect_anomaly`
returns the warm-up result: no anomaly and zero severity. -/
theorem detect_anomaly_warmup (data : sensor_data) (baseline_stats : statistics)
    (config : anomaly_config)
    (h : baseline_stats.sample_count < config.min_samples_for_analysis) :
    (detect_anomaly data baseline_stats config).is_anomaly = false ∧
    (detect_anomaly data baseline_stats config).severity = 0 := by
  simp [detect_anomaly, h]

/-- Witness for C5: an extreme outlier (value 1000000) against a baseline of
3 samples with `min_samples_for_analysis = 5`. -/
theorem detect_anomaly_warmup_witness :
    ({ init_statistics with sample_count := 3 } : statistics).sample_count <
      ({ threshold_multiplier := 2, absolute_threshold := 1, window_size := 50,
         min_samples_for_analysis := 5 } : anomaly_config).min_samples_for_analysis ∧
    ((detect_anomaly outlierReading { init_statistics with sample_count := 3 }
        { threshold_multiplier := 2, absolute_threshold := 1, window_size := 50,
          min_samples_for_analysis := 5 }).is_anomaly = false ∧
      (detect_anomaly outlierReading { init_statistics with sample_count := 3 }
        { threshold_multiplier := 2, absolute_threshold := 1, window_size := 50,
          min_samples_for_analysis := 5 }).severity = 0) :=
  ⟨by decide, detect_anomaly_warmup _ _ _ (by decide)⟩

/-- C6: past warm-up, when both the statistical threshold and the absolute
threshold fire on the same reading, the reported severity is the statistical
one (`|value - mean| / std_deviation`); the absolute check sets the severity
(to `|value| / absolute_threshold`) only if the statistical check produced
zero severity. -/
theorem detect_anomaly_severity_priority (data : sensor_data)
    (baseline_stats : statistics) (config : anomaly_config)
    (hwarm : config.min_samples_for_analysis ≤ baseline_stats.sample_count)
    (hstat : config.threshold_multiplier * baseline_stats.std_deviation <
      |data.value - baseline_stats.mean|)
    (habs : config.absolute_threshold < |data.value|) :
    ((|data.value - baseline_stats.mean| / baseline_stats.std_deviation ≠ 0 →
        (detect_anomaly data baseline_stats config).severity =
          |data.value - baseline_stats.mean| / baseline_stats.std_deviation) ∧
      (|data.value - baseline_stats.mean| / baseline_stats.std_deviation = 0 →
        (detect_anomaly data baseline_stats config).severity =
          |data.value| / config.absolute_threshold)) := by
  have h1 : ¬ baseline_stats.sample_count < config.min_samples_for_analysis :=
    not_lt.mpr hwarm
  constructor
  · intro hne
    simp [detect_anomaly, h1, hstat, habs, hne]
  · intro heq
    simp [detect_anomaly, h1, hstat, habs, heq]

/-- Concrete reading for the C6 witness: value 10. -/
def tenReading : sensor_data := ⟨0, 10, ⟨0, 0⟩, "C", "t"⟩

/-- Concrete baseline for the C6 witness: mean 0, standard deviation 1,
5 samples. -/
def unitBaseline : statistics :=
  { init_statistics with sample_count := 5, std_deviation := 1 }

/-- Concrete configuration for the C6 witness: multiplier 2, absolute
ceiling 3, warm-up 5. -/
def bothFireConfig : anomaly_config :=
  { threshold_multiplier := 2, absolute_threshold := 3, window_size := 50,
    min_samples_for_analysis := 5 }

/-- Witness for C6: reading value 10 fires both checks against
`unitBaseline` and `bothFireConfig`, and the reported severity is the
statistical ratio. -/
theorem detect_anomaly_severity_priority_witness :
    (bothFireConfig.min_samples_for_analysis ≤ unitBaseline.sample_count) ∧
    (bothFireConfig.threshold_multiplier * unitBaseline.std_deviation <
      |tenReading.value - unitBaseline.mean|) ∧
    (bothFireConfig.absolute_threshold < |tenReading.value|) ∧
    ((|tenReading.value - unitBaseline.mean| / unitBaseline.std_deviation ≠ 0 →
        (detect_anomaly tenReading unitBaseline bothFireConfig).severity =
          |tenReading.value - unitBaseline.mean| / unitBaseline.std_deviation) ∧
      (|tenReading.value - unitBaseline.mean| / unitBaseline.std_deviation = 0 →
        (detect_anomaly tenReading unitBaseline bothFireConfig).severity =
          |tenReading.value| / bothFireConfig.absolute_threshold)) :=
  ⟨by decide,
    by norm_num [tenReading, unitBaseline, bothFireConfig, init_statistics],
    by norm_num [tenReading, bothFireConfig],
    detect_anomaly_severity_priority tenReading unitBaseline bothFireConfig
      (by decide)
      (by norm_num [tenReading, unitBaseline, bothFireConfig, init_statistics])
      (by norm_num [tenReading, bothFireConfig])⟩

/-- C7: `analyze_trend` returns the neutral result (direction `"stable"`,
slope 0, zero correlation, zero confidence) whenever the sample count is
below `window_size` or `window_size < 2`, and likewise whenever the
least-squares index-variance denominator is within the `1e-10` guard (the
source returns the neutral result instead of dividing by it). -/
theorem analyze_trend_neutral_cases (data_array : List sensor_data) (window_size : ℕ) :
    ((data_array.length < window_size ∨ window_size < 2) →
      analyze_trend data_array window_size = neutral_trend) ∧
    (|trend_denominator data_array window_size| ≤ 1 / 10 ^ 10 →
      analyze_trend data_array window_size = neutral_trend) := by
  constructor
  · intro h
    simp [analyze_trend, h]
  · intro h
    by_cases hg : data_array.length < window_size ∨ window_size < 2
    · simp [analyze_trend, hg]
    · have h' : ¬ (1 / 10 ^ 10 < |trend_denominator data_array window_size|) :=
        not_lt.mpr h
      simp only [analyze_trend, if_neg hg]
      rw [if_neg (by simpa [trend_denominator] using h')]

/-- Witness for C7: the empty sample list with window 2 (insufficient data),
and a single sample with window 1, whose denominator is exactly 0 and within
the guard. -/
theorem analyze_trend_neutral_cases_witness :
    (([] : List sensor_data).length < 2 ∨ (2 : ℕ) < 2) ∧
    analyze_trend ([] : List sensor_data) 2 = neutral_trend ∧
    |trend_denominator [fiveReading] 1| ≤ 1 / 10 ^ 10 ∧
    analyze_trend [fiveReading] 1 = neutral_trend :=
  ⟨by decide,
    (analyze_trend_neutral_cases ([] : List sensor_data) 2).1 (by decide),
    by norm_num [trend_denominator, trend_window, trend_sums, fiveReading],
    (analyze_trend_neutral_cases [fiveReading] 1).2
      (by norm_num [trend_denominator, trend_window, trend_sums, fiveReading])⟩

/-! ## Peak detection: helper lemmas -/

/-- The imperative peak loop of `analyze_frequency_spectrum` computes the
number of strict interior local maxima and folds the running maximum of the
peak values over the accumulator. -/
theorem peak_scan_eq : ∀ (xs : List ℚ) (pc : ℕ) (amp : ℚ),
    peak_scan xs (pc, amp) =
      (pc + (localPeaks xs).length,
        (localPeaks xs).foldl (fun m v => if m < v then v else m) amp)
  | [], _, _ => by simp [peak_scan, localPeaks]
  | [_], _, _ => by simp [peak_scan, localPeaks]
  | [_, _], _, _ => by simp [peak_scan, localPeaks]
  | a :: b :: c :: rest, pc, amp => by
    simp only [peak_scan, localPeaks]
    by_cases h : a < b ∧ c < b
    · simp only [if_pos h, peak_scan_eq (b :: c :: rest)]
      simp [Nat.add_comm, Nat.add_assoc, Nat.add_left_comm]
    · simp only [if_neg h, peak_scan_eq (b :: c :: rest)]
      simp

/-- The running-maximum fold never goes below its starting accumulator. -/
theorem le_foldl_peak_amp (l : List ℚ) :
    ∀ m : ℚ, m ≤ l.foldl (fun m v => if m < v then v else m) m := by
  induction l with
  | nil => intro m; simp
  | cons a t ih =>
    intro m
    rw [List.foldl_cons]
    refine le_trans ?_ (ih (if m < a then a else m))
    split_ifs with h
    · exact h.le
    · exact le_refl m

/-- Over an all-negative list the running-maximum fold stays at 0. -/
theorem foldl_peak_amp_of_neg (l : List ℚ) (hl : ∀ v ∈ l, v < 0) :
    l.foldl (fun m v => if m < v then v else m) 0 = 0 := by
  induction l with
  | nil => simp
  | cons a t ih =>
    rw [List.foldl_cons]
    have ha : a < 0 := hl a (by simp)
    rw [if_neg (not_lt.mpr ha.le)]
    exact ih (fun v hv => hl v (by simp [hv]))

/-- C8 counterexample: on the input `[-3, -1, -3, -1, -3]` (two peaks, all
negative) with the spec's sample interval 0.2 s, the source returns
frequency 4 (its 100 ms interval is hardcoded) and amplitude 0 (its running
maximum starts at 0), while the claimed formula gives frequency
`2 / (5 * 0.2) = 2` and amplitude `max(peakValues) = -1`. -/
theorem frequency_estimate_interval_counterexample :
    analyze_frequency_spectrum [-3, -1, -3, -1, -3] ≠
      some (spec_estimate [-3, -1, -3, -1, -3] (1 / 5)) := by
  norm_num [analyze_frequency_spectrum, spec_estimate, peak_scan, localPeaks]

/-- C8 amended: for at least four input values,
`analyze_frequency_spectrum` returns `some (f, a)` with `f` the number of
strict interior local maxima divided by `count * 0.1` seconds — a hardcoded
100 ms sample interval; the spec's `sampleIntervalSeconds` argument does not
exist in the source — and `a` the running maximum of the peak values starting
from 0 (so `a = max(0, largest peak)`, not `max(peakValues)`). -/
theorem analyze_frequency_spectrum_peaks (values : List ℚ) (h : 4 ≤ values.length) :
    analyze_frequency_spectrum values =
      some (((localPeaks values).length : ℚ) / ((values.length : ℚ) * (1 / 10)),
        (localPeaks values).foldl (fun m v => if m < v then v else m) 0) := by
  have h' : ¬ values.length < 4 := not_lt.mpr h
  have ht : (0 : ℚ) < (values.length : ℚ) * (1 / 10) := by
    have h0 : 0 < values.length := by omega
    have hc : (0 : ℚ) < (values.length : ℚ) := by exact_mod_cast h0
    positivity
  simp only [analyze_frequency_spectrum, if_neg h', peak_scan_eq, Nat.zero_add]
  by_cases hp : 0 < (localPeaks values).length
  · rw [if_pos ⟨hp, ht⟩]
  · have hz : (localPeaks values).length = 0 := by omega
    simp [hz]

/-- Witness for the amended C8 at the concrete input `[0, 1, 0, 1]`. -/
theorem analyze_frequency_spectrum_peaks_witness :
    4 ≤ [(0 : ℚ), 1, 0, 1].length ∧
    analyze_frequency_spectrum [(0 : ℚ), 1, 0, 1] =
      some (((localPeaks [(0 : ℚ), 1, 0, 1]).length : ℚ) /
          (([(0 : ℚ), 1, 0, 1].length : ℚ) * (1 / 10)),
        (localPeaks [(0 : ℚ), 1, 0, 1]).foldl (fun m v => if m < v then v else m) 0) :=
  ⟨by decide, analyze_frequency_spectrum_peaks [(0 : ℚ), 1, 0, 1] (by decide)⟩

/-- C10: whenever `analyze_frequency_spectrum` succeeds, the returned
amplitude is non-negative; it starts at 0 and is only raised by peak values
above the running maximum, so when every strict interior local maximum is
negative (or there are no peaks at all) the returned amplitude is 0, not the
value of the largest peak. -/
theorem frequency_amplitude_nonneg (values : List ℚ) (p : ℚ × ℚ)
    (h : analyze_frequency_spectrum values = some p) :
    0 ≤ p.2 ∧ ((∀ v ∈ localPeaks values, v < 0) → p.2 = 0) := by
  by_cases h4 : values.length < 4
  · simp [analyze_frequency_spectrum, h4] at h
  · simp only [analyze_frequency_spectrum, if_neg h4, peak_scan_eq, Nat.zero_add,
      Option.some.injEq] at h
    constructor
    · rw [← h]
      exact le_foldl_peak_amp (localPeaks values) 0
    · intro hneg
      rw [← h]
      exact foldl_peak_amp_of_neg (localPeaks values) hneg

/-- Witness for C10 at the concrete input `[0, 1, 0, 1]`, whose result is
`some (5/2, 1)`. -/
theorem frequency_amplitude_nonneg_witness :
    analyze_frequency_spectrum [(0 : ℚ), 1, 0, 1] = some ((5 : ℚ) / 2, (1 : ℚ)) ∧
    (0 ≤ ((5 : ℚ) / 2, (1 : ℚ)).2 ∧
      ((∀ v ∈ localPeaks [(0 : ℚ), 1, 0, 1], v < 0) → ((5 : ℚ) / 2, (1 : ℚ)).2 = 0)) :=
  ⟨by norm_num [analyze_frequency_spectrum, peak_scan],
    frequency_amplitude_nonneg [(0 : ℚ), 1, 0, 1] ((5 : ℚ) / 2, (1 : ℚ))
      (by norm_num [analyze_frequency_spectrum, peak_scan])⟩

/-- C9: `analyze_bridge_vibration` computes the mean square of the sample
values (the square of `rms = sqrt(mean(value²))` — the embedding carries the
square, see `bridge_analysis`) and the peak amplitude, and classifies:
status 0 (Safe) when `rms < 0.1` and `peak < 0.3` (squared thresholds here),
status 1 (Warning) when `rms < 0.3` and `peak < 0.8`, status 2 (Critical)
otherwise; for fewer than 10 samples it returns the explicit
insufficient-data verdict. -/
theorem analyze_bridge_vibration_tiers (vibration_data : List sensor_data) :
    (vibration_data.length < 10 →
      analyze_bridge_vibration vibration_data = insufficient_verdict) ∧
    (10 ≤ vibration_data.length →
      ((analyze_bridge_vibration vibration_data).rms_sq_amplitude =
        (vibration_data.map (fun d => d.value * d.value)).sum / (vibration_data.length : ℚ) ∧
      (analyze_bridge_vibration vibration_data).peak_amplitude =
        (vibration_data.map (fun d => d.value)).foldl (fun p v => if p < v then v else p) 0 ∧
      (analyze_bridge_vibration vibration_data).safety_status =
        (if (vibration_data.map (fun d => d.value * d.value)).sum / (vibration_data.length : ℚ) <
              (1 / 10) * (1 / 10) ∧
            (vibration_data.map (fun d => d.value)).foldl
              (fun p v => if p < v then v else p) 0 < 3 / 10
          then 0
          else if (vibration_data.map (fun d => d.value * d.value)).sum /
                (vibration_data.length : ℚ) < (3 / 10) * (3 / 10) ∧
              (vibration_data.map (fun d => d.value)).foldl
                (fun p v => if p < v then v else p) 0 < 8 / 10
            then 1 else 2))) := by
  constructor
  · intro h
    simp [analyze_bridge_vibration, h]
  · intro h
    have h' : ¬ vibration_data.length < 10 := not_lt.mpr h
    simp only [analyze_bridge_vibration, if_neg h', List.map_map, Function.comp_def]
    split_ifs <;> simp

/-- Nine zero-valued vibration readings (below the 10-sample minimum). -/
def nineZeroReadings : List sensor_data :=
  [zeroReading, zeroReading, zeroReading, zeroReading, zeroReading,
   zeroReading, zeroReading, zeroReading, zeroReading]

/-- Ten zero-valued vibration readings (a quiet, Safe signal). -/
def tenZeroReadings : List sensor_data :=
  [zeroReading, zeroReading, zeroReading, zeroReading, zeroReading,
   zeroReading, zeroReading, zeroReading, zeroReading, zeroReading]

/-- Witness for C9: nine samples give the insufficient-data verdict; ten
zero-valued samples classify as status 0 (Safe). -/
theorem analyze_bridge_vibration_tiers_witness :
    (nineZeroReadings.length < 10 ∧
      analyze_bridge_vibration nineZeroReadings = insufficient_verdict) ∧
    (10 ≤ tenZeroReadings.length ∧
      (analyze_bridge_vibration tenZeroReadings).safety_status = 0) := by
  refine ⟨⟨by decide, (analyze_bridge_vibration_tiers nineZeroReadings).1 (by decide)⟩,
    ⟨by decide, ?_⟩⟩
  have h := (analyze_bridge_vibration_tiers tenZeroReadings).2 (by decide)
  rw [h.2.2]
  norm_num [tenZeroReadings, zeroReading]

/-! ## Moving average: circular-buffer invariant -/

/-- One `update_moving_average` step, written as a single record update for
each of the two branches of the eviction check. -/
theorem update_moving_average_eq (ma : moving_average) (v : ℚ) :
    (update_moving_average ma v).1 =
      if ma.buffer_size ≤ ma.sample_count then
        { ma with
          buffer := Function.update ma.buffer ma.current_index v,
          sum := ma.sum - ma.buffer ma.current_index + v,
          current_index := (ma.current_index + 1) % ma.buffer_size }
      else
        { ma with
          buffer := Function.update ma.buffer ma.current_index v,
          sum := ma.sum + v,
          sample_count := ma.sample_count + 1,
          current_index := (ma.current_index + 1) % ma.buffer_size } := by
  unfold update_moving_average
  dsimp only
  split_ifs <;> rfl

/-- The value `update_moving_average` returns is the updated running sum over
the updated sample count. -/
theorem update_moving_average_snd (ma : moving_average) (v : ℚ) :
    (update_moving_average ma v).2 =
      (update_moving_average ma v).1.sum /
        ((update_moving_average ma v).1.sample_count : ℚ) := rfl

/-- The circular-buffer invariant of the moving-average filter after feeding
any input sequence `xs` into a freshly initialised window of capacity
`c > 0`: the sample count is `min |xs| c`, the write index is `|xs| % c`,
the running sum is the sum of the last `min |xs| c` inputs, and slot `k % c`
holds input `k` for each of the last `min |xs| c` input positions `k`. -/
theorem runMovingAverage_spec (c : ℕ) (hc : 0 < c) (xs : List ℚ) :
    (runMovingAverage c xs).buffer_size = c ∧
    (runMovingAverage c xs).sample_count = min xs.length c ∧
    (runMovingAverage c xs).current_index = xs.length % c ∧
    (runMovingAverage c xs).sum = (xs.drop (xs.length - c)).sum ∧
    (∀ k, k < xs.length → xs.length ≤ k + c →
      (runMovingAverage c xs).buffer (k % c) = xs.getD k 0) := by
  induction xs using List.reverseRecOn with
  | nil =>
    refine ⟨rfl, by simp [runMovingAverage], by simp [runMovingAverage], ?_, ?_⟩
    · simp [runMovingAverage]
    · intro k hk
      simp at hk
  | append_singleton ys v ih =>
    obtain ⟨hbs, hsc, hci, hsum, hbuf⟩ := ih
    have hstep : runMovingAverage c (ys ++ [v]) =
        (update_moving_average (runMovingAverage c ys) v).1 := by
      simp [runMovingAverage, List.foldl_append]
    rw [hstep, update_moving_average_eq, hbs, hsc, hci]
    by_cases hcn : c ≤ ys.length
    · rw [if_pos (by omega)]
      have hlen : ys.length - c < ys.length := by omega
      have hmodeq : (ys.length - c) % c = ys.length % c := by
        conv_rhs => rw [← Nat.sub_add_cancel hcn]
        rw [Nat.add_mod_right]
      have hold : (runMovingAverage c ys).buffer (ys.length % c) =
          ys.getD (ys.length - c) 0 := by
        rw [← hmodeq]
        exact hbuf (ys.length - c) hlen (by omega)
      refine ⟨rfl, ?_, ?_, ?_, ?_⟩
      · simp only [List.length_append, List.length_singleton]
        omega
      · simp only [List.length_append, List.length_singleton]
        rw [Nat.mod_add_mod]
      · rw [hold, hsum]
        have hdrop1 : (ys ++ [v]).drop ((ys ++ [v]).length - c) =
            ys.drop (ys.length + 1 - c) ++ [v] := by
          rw [List.length_append, List.length_singleton,
            List.drop_append_of_le_length (by omega)]
        rw [hdrop1, List.sum_append, List.sum_singleton]
        have hsplit : ys.drop (ys.length - c) =
            ys.getD (ys.length - c) 0 :: ys.drop (ys.length - c + 1) := by
          rw [List.getD_eq_getElem ys 0 hlen]
          exact List.drop_eq_getElem_cons hlen
        rw [hsplit, List.sum_cons]
        have : ys.length + 1 - c = ys.length - c + 1 := by omega
        rw [this]
        ring
      · intro k hk hkc
        simp only [List.length_append, List.length_singleton] at hk hkc
        by_cases hkn : k = ys.length
        · subst hkn
          dsimp only
          rw [Function.update_same]
          simp [List.getD_eq_getElem?_getD, List.getElem?_append_right (le_refl ys.length)]
        · have hklt : k < ys.length := by omega
          have hne : k % c ≠ ys.length % c := by
            intro he
            have hdvd : c ∣ ys.length - k := (Nat.modEq_iff_dvd' hklt.le).mp he
            have := Nat.le_of_dvd (by omega) hdvd
            omega
          dsimp only
          rw [Function.update_noteq hne, hbuf k hklt (by omega)]
          simp [List.getD_eq_getElem?_getD, List.getElem?_append_left hklt]
    -- window not yet full
    · rw [if_neg (by omega)]
      have hlt : ys.length < c := by omega
      have hmod : ys.length % c = ys.length := Nat.mod_eq_of_lt hlt
      refine ⟨rfl, ?_, ?_, ?_, ?_⟩
      · simp only [List.length_append, List.length_singleton]
        omega
      · simp only [List.length_append, List.length_singleton]
        rw [Nat.mod_add_mod]
      · rw [hsum]
        have h1 : ys.length - c = 0 := by omega
        have h2 : (ys ++ [v]).length - c = 0 := by
          simp only [List.length_append, List.length_singleton]
          omega
        rw [h1, h2]
        simp
      · intro k hk hkc
        simp only [List.length_append, List.length_singleton] at hk hkc
        by_cases hkn : k = ys.length
        · subst hkn
          dsimp only
          rw [Nat.mod_eq_of_lt hlt, Function.update_same]
          simp [List.getD_eq_getElem?_getD, List.getElem?_append_right (le_refl ys.length)]
        · have hklt : k < ys.length := by omega
          have hne : k % c ≠ ys.length := by
            rw [Nat.mod_eq_of_lt (by omega : k < c)]
            omega
          dsimp only
          rw [hmod, Function.update_noteq hne, hbuf k hklt (by omega)]
          simp [List.getD_eq_getElem?_getD, List.getElem?_append_left hklt]

/-- C4: for every capacity `c > 0` and every input history `ys ++ [v]`,
`update_moving_average` returns the arithmetic mean of the most recent
`min(n, c)` values inserted so far (`n` the number of insertions): the sum of
the last `min(n, c)` inputs divided by `min(n, c)`.  In particular the
returned average never includes more than the `c` most recent values. -/
theorem moving_average_windowed_mean (c : ℕ) (hc : 0 < c) (ys : List ℚ) (v : ℚ) :
    (update_moving_average (runMovingAverage c ys) v).2 =
      ((ys ++ [v]).drop ((ys ++ [v]).length - c)).sum /
        (min (ys ++ [v]).length c : ℚ) := by
  have hstep : runMovingAverage c (ys ++ [v]) =
      (update_moving_average (runMovingAverage c ys) v).1 := by
    simp [runMovingAverage, List.foldl_append]
  have hinv := runMovingAverage_spec c hc (ys ++ [v])
  rw [update_moving_average_snd, ← hstep, hinv.2.2.2.1, hinv.2.1]
  norm_cast

/-- Witness for C4: capacity 2, history `[1, 2, 3]`; the returned windowed
mean is the mean of the last two values. -/
theorem moving_average_windowed_mean_witness :
    0 < 2 ∧
    (update_moving_average (runMovingAverage 2 [1, 2]) 3).2 =
      ((([1, 2] : List ℚ) ++ [3]).drop ((([1, 2] : List ℚ) ++ [3]).length - 2)).sum /
        (min (([1, 2] : List ℚ) ++ [3]).length 2 : ℚ) :=
  ⟨by decide, moving_average_windowed_mean 2 (by decide) [1, 2] 3⟩

/-! ## Logger flush and rotation -/

/-- Effect of the serialization loop of `flush_logger_buffer`: it appends one
CSV record per buffered reading, in order, to the open file, only grows the
size counter, and leaves every other field unchanged. -/
theorem foldl_write_record (lt : Int → tm_info) (ds : List sensor_data) :
    ∀ lg : data_logger,
      (ds.foldl (write_record lt) lg).config = lg.config ∧
      (ds.foldl (write_record lt) lg).current_filename = lg.current_filename ∧
      (ds.foldl (write_record lt) lg).buffer = lg.buffer ∧
      (ds.foldl (write_record lt) lg).closed_files = lg.closed_files ∧
      (ds.foldl (write_record lt) lg).current_file =
        lg.current_file ++ ds.map (csv_line lt) ∧
      lg.current_file_size ≤ (ds.foldl (write_record lt) lg).current_file_size := by
  induction ds with
  | nil => intro lg; simp
  | cons d t ih =>
    intro lg
    rw [List.foldl_cons]
    obtain ⟨h1, h2, h3, h4, h5, h6⟩ := ih (write_record lt lg d)
    refine ⟨by rw [h1]; rfl, by rw [h2]; rfl, by rw [h3]; rfl, by rw [h4]; rfl, ?_, ?_⟩
    · rw [h5]
      simp [write_record]
    · refine le_trans ?_ h6
      simp [write_record]

/-- Combined behaviour of `flush_logger_buffer` when it runs with a
non-empty buffer, auto-rotation on, and a durable file size already past the
rotation threshold: every buffered reading is serialized into the old file
and the buffer cleared before rotation, the old file (with all its records)
is closed and retained, and the fresh file starts with exactly the header,
its size counter holding only the header bytes, under a name rebuilt from
the extracted base name and the rotation timestamp. -/
theorem flush_rotates_spec (lg : data_logger) (lt : Int → tm_info)
    (now : precise_time) (now_tm : tm_info)
    (hbuf : lg.buffer ≠ [])
    (hauto : lg.config.auto_rotate = true)
    (hsize : lg.config.max_file_size_mb * 1024 * 1024 < lg.current_file_size) :
    (flush_logger_buffer lg lt now now_tm).closed_files =
      lg.closed_files ++
        [(lg.current_filename, lg.current_file ++ lg.buffer.map (csv_line lt))] ∧
    (flush_logger_buffer lg lt now now_tm).buffer = [] ∧
    (flush_logger_buffer lg lt now now_tm).current_file = [csv_header] ∧
    (flush_logger_buffer lg lt now now_tm).current_file_size = csv_header.length ∧
    (flush_logger_buffer lg lt now now_tm).current_filename =
      log_filename lg.config.directory (extract_base_name lg.current_filename) now_tm := by
  obtain ⟨h1, h2, h3, h4, h5, h6⟩ := foldl_write_record lt lg.buffer lg
  have hhdr : 0 < csv_header.length := by decide
  unfold flush_logger_buffer
  rw [if_neg hbuf]
  dsimp only
  rw [h1, hauto]
  rw [if_pos ⟨rfl, lt_of_lt_of_le hsize h6⟩]
  unfold rotate_log_file write_csv_header
  dsimp only
  rw [if_pos hhdr]
  refine ⟨?_, rfl, by simp, by simp, ?_⟩
  · dsimp only
    rw [h4, h5, h2]
  · dsimp only
    rw [h2]

/-- Concrete reading used in the logger scenarios. -/
def sampleReading : sensor_data := ⟨0, 1 / 2, ⟨0, 0⟩, "C", "temp"⟩

/-- A fixed `localtime` environment mapping every instant to
2024-01-01 00:00:00. -/
def localtimeFixed : Int → tm_info := fun _ => ⟨124, 0, 1, 0, 0, 0⟩

/-- A logger state about to rotate: base name `bridge_vibration` (the
default bridge-monitoring base name, which contains an underscore), one
buffered reading, rotation threshold 0 MiB, durable size 45 bytes. -/
def preRotationLogger : data_logger :=
  { config := { filename := "", directory := "data", max_file_size_mb := 0,
                auto_rotate := true, buffer_size := 100, flush_interval_ms := 1000 },
    current_filename := "data/bridge_vibration_20240101_000000.csv",
    current_file := [csv_header],
    current_file_size := 45,
    sample_count := 1,
    buffer := [sampleReading],
    last_flush := ⟨0, 0⟩,
    closed_files := [] }

/-- C2 counterexample: flushing `preRotationLogger` does rotate, but the
post-rotation state refutes the claim on two counts — the size counter is
not zero (it already holds the fresh header's 45 bytes), and the new file is
not named from the same base name: `bridge_vibration` is truncated at its
first underscore to `bridge`, so the new name is not
`data/bridge_vibration_20240102_030405.csv`. -/
theorem flush_rotation_claim_counterexample :
    (flush_logger_buffer preRotationLogger localtimeFixed ⟨5, 0⟩
        ⟨124, 0, 2, 3, 4, 5⟩).current_file_size ≠ 0 ∧
    (flush_logger_buffer preRotationLogger localtimeFixed ⟨5, 0⟩
        ⟨124, 0, 2, 3, 4, 5⟩).current_filename ≠
      "data/bridge_vibration_20240102_030405.csv" := by
  obtain ⟨-, -, -, hsize, hname⟩ :=
    flush_rotates_spec preRotationLogger localtimeFixed ⟨5, 0⟩ ⟨124, 0, 2, 3, 4, 5⟩
      (by decide) (by decide) (by decide)
  constructor
  · rw [hsize]; decide
  · rw [hname]; decide

/-- C2 amended: whenever `flush_logger_buffer` runs with a non-empty buffer,
auto-rotation on, and the durable file size already exceeding the configured
rotation threshold, rotation is triggered only after every buffered reading
has been serialized and the buffer cleared (the closed file retains the
whole buffer: no data loss); `rotate_log_file` closes the old file, opens a
new file named from the base name extracted from the old filename — the part
after the last slash truncated at its first underscore, which preserves the
original base name only when that name contains no underscore — with the
rotation-time timestamp, re-writes the column header, and resets the size
counter to zero before that header is counted, so the post-rotation file
consists of exactly the fresh header and its size counter equals the header
length (not zero). -/
theorem flush_rotation_preserves_data (lg : data_logger) (lt : Int → tm_info)
    (now : precise_time) (now_tm : tm_info)
    (hbuf : lg.buffer ≠ [])
    (hauto : lg.config.auto_rotate = true)
    (hsize : lg.config.max_file_size_mb * 1024 * 1024 < lg.current_file_size) :
    (flush_logger_buffer lg lt now now_tm).closed_files =
      lg.closed_files ++
        [(lg.current_filename, lg.current_file ++ lg.buffer.map (csv_line lt))] ∧
    (flush_logger_buffer lg lt now now_tm).buffer = [] ∧
    (flush_logger_buffer lg lt now now_tm).current_file = [csv_header] ∧
    (flush_logger_buffer lg lt now now_tm).current_file_size = csv_header.length ∧
    (flush_logger_buffer lg lt now now_tm).current_filename =
      log_filename lg.config.directory (extract_base_name lg.current_filename) now_tm :=
  flush_rotates_spec lg lt now now_tm hbuf hauto hsize

/-- Witness for the amended C2 at the concrete `preRotationLogger` state. -/
theorem flush_rotation_preserves_data_witness :
    (preRotationLogger.buffer ≠ [] ∧
      preRotationLogger.config.auto_rotate = true ∧
      preRotationLogger.config.max_file_size_mb * 1024 * 1024 <
        preRotationLogger.current_file_size) ∧
    ((flush_logger_buffer preRotationLogger localtimeFixed ⟨5, 0⟩
          ⟨124, 0, 2, 3, 4, 5⟩).closed_files =
        preRotationLogger.closed_files ++
          [(preRotationLogger.current_filename,
            preRotationLogger.current_file ++
              preRotationLogger.buffer.map (csv_line localtimeFixed))] ∧
      (flush_logger_buffer preRotationLogger localtimeFixed ⟨5, 0⟩
          ⟨124, 0, 2, 3, 4, 5⟩).buffer = [] ∧
      (flush_logger_buffer preRotationLogger localtimeFixed ⟨5, 0⟩
          ⟨124, 0, 2, 3, 4, 5⟩).current_file = [csv_header] ∧
      (flush_logger_buffer preRotationLogger localtimeFixed ⟨5, 0⟩
          ⟨124, 0, 2, 3, 4, 5⟩).current_file_size = csv_header.length ∧
      (flush_logger_buffer preRotationLogger localtimeFixed ⟨5, 0⟩
          ⟨124, 0, 2, 3, 4, 5⟩).current_filename =
        log_filename preRotationLogger.config.directory
          (extract_base_name preRotationLogger.current_filename)
          ⟨124, 0, 2, 3, 4, 5⟩) :=
  ⟨⟨by decide, by decide, by decide⟩,
    flush_rotation_preserves_data preRotationLogger localtimeFixed ⟨5, 0⟩
      ⟨124, 0, 2, 3, 4, 5⟩ (by decide) (by decide) (by decide)⟩

end SensorLogger
